import Mathlib

set_option maxRecDepth 8000

/-!
Verification development for the `twillecke/site` repository: a static
personal website consisting of an Astro build configuration, a typed
constants module (`src/consts.ts`), and four Markdown content documents.
The definitions below are a shallow embedding of those files; the theorems
check the data-integrity properties of the spec against them.
-/

/-! ### Embedding of `src/consts.ts` (`SITE`, `SOCIALS`) -/

/-- The `Site` record shape of `src/consts.ts`: name, contact email, and one
integer count per content type controlling how many items appear on the
landing page.  Counts are embedded as `Int` (TypeScript `number`). -/
structure SiteRecord where
  NAME : String
  EMAIL : String
  NUM_POSTS_ON_HOMEPAGE : Int
  NUM_WORKS_ON_HOMEPAGE : Int
  NUM_PROJECTS_ON_HOMEPAGE : Int
deriving DecidableEq

/-- The `SITE` constant of `src/consts.ts`, lines 3-9. -/
def SITE : SiteRecord :=
  { NAME := "Thiago Willecke | dev"
    EMAIL := "thiagogwillecke@gmail.com"
    NUM_POSTS_ON_HOMEPAGE := 3
    NUM_WORKS_ON_HOMEPAGE := 2
    NUM_PROJECTS_ON_HOMEPAGE := 3 }

/-- One entry of the `Socials` sequence: a name and a URL. -/
structure SocialEntry where
  NAME : String
  HREF : String
deriving DecidableEq

/-- The `SOCIALS` constant of `src/consts.ts`, lines 31-40. -/
def SOCIALS : List SocialEntry :=
  [ { NAME := "github", HREF := "https://github.com/twillecke" },
    { NAME := "linkedin", HREF := "https://www.linkedin.com/in/thiago-guedes-willecke/" } ]

/-! ### Embedding of the content documents

Each content document carries a front-matter block.  Fields are embedded as
`Option` values so that a field that is absent from a document's front-matter
block is `none` (the "Automated Tests" document has no `draft` field). -/

/-- Front-matter block of a content document. -/
structure FrontMatter where
  title : Option String
  description : Option String
  date : Option String
  draft : Option Bool
deriving DecidableEq

/-- Content type of a document, matching the three landing-page count fields
of `SITE` (posts, works, projects). -/
inductive ContentType where
  | post
  | work
  | project
deriving DecidableEq

/-- A content document: its type plus its front-matter block (bodies are
free text and carry no checked structure). -/
structure ContentDoc where
  ctype : ContentType
  fm : FrontMatter
deriving DecidableEq

/-- The rate-limiters article (bundled in `src/consts.ts`, lines 41-46). -/
def rateLimitersDoc : ContentDoc :=
  { ctype := ContentType.post
    fm := { title := some "Handling traffic with rate limiters"
            description := some "A TypeScript implementation"
            date := some "Jul 21 2025"
            draft := some false } }

/-- The automated-tests article (bundled in `src/consts.ts`, lines 200-204).
Its front-matter block has no `draft` field. -/
def automatedTestsDoc : ContentDoc :=
  { ctype := ContentType.post
    fm := { title := some "Automated Tests"
            description := some "What are automated tests and why should you implement them?"
            date := some "Dec 23 2024"
            draft := none } }

/-- The polling-versus-event-listener article (`src/unnamed/part_001`, lines 1-6). -/
def pollingDoc : ContentDoc :=
  { ctype := ContentType.post
    fm := { title := some "Polling vs Event Listener"
            description := some "Exploring the difference between polling and listening to events"
            date := some "Jan 04 2025"
            draft := some false } }

/-- The fragment-shaders article (`src/unnamed/part_002`, lines 1-6). -/
def shadersDoc : ContentDoc :=
  { ctype := ContentType.post
    fm := { title := some "An introduction to fragment shaders"
            description := some "What are they and how to implement them"
            date := some "Jul 07 2025"
            draft := some false } }

/-- All content documents present in the repository's source files. -/
def contentDocs : List ContentDoc :=
  [rateLimitersDoc, automatedTestsDoc, pollingDoc, shadersDoc]

/-- Number of available content items of a given type among the repository's
source files. -/
def countOfType (t : ContentType) : Nat :=
  List.countP (fun d => decide (d.ctype = t)) contentDocs

/-! ### Date validity

Modelled from the spec: the repository itself contains no date parser; the
front-matter `date` strings ("Mon DD YYYY") are consumed by the external
renderer, and the spec's testable property is that they "parse as valid
dates".  `parseDate` checks exactly that for the "Mon DD YYYY" format used
by every document, including day-of-month range and leap years. -/

/-- Split a character list on spaces. -/
def splitOnSpace : List Char → List Char → List (List Char)
  | [], cur => [cur.reverse]
  | c :: rest, cur =>
    if c = ' ' then cur.reverse :: splitOnSpace rest []
    else splitOnSpace rest (c :: cur)

/-- Read a list of decimal digits as a number; `none` on a non-digit. -/
def digitsToNat : List Char → Nat → Option Nat
  | [], acc => some acc
  | c :: rest, acc =>
    if c.isDigit then digitsToNat rest (acc * 10 + (c.toNat - 48)) else none

/-- Month abbreviation to month number. -/
def monthNum (s : String) : Option Nat :=
  if s = "Jan" then some 1 else if s = "Feb" then some 2
  else if s = "Mar" then some 3 else if s = "Apr" then some 4
  else if s = "May" then some 5 else if s = "Jun" then some 6
  else if s = "Jul" then some 7 else if s = "Aug" then some 8
  else if s = "Sep" then some 9 else if s = "Oct" then some 10
  else if s = "Nov" then some 11 else if s = "Dec" then some 12
  else none

/-- Gregorian leap-year test. -/
def isLeapYear (y : Nat) : Bool :=
  (y % 4 == 0 && y % 100 != 0) || (y % 400 == 0)

/-- Number of days in a month of a year. -/
def daysInMonth (m y : Nat) : Nat :=
  if m = 2 then (if isLeapYear y then 29 else 28)
  else if m = 4 ∨ m = 6 ∨ m = 9 ∨ m = 11 then 30
  else if 1 ≤ m ∧ m ≤ 12 then 31
  else 0

/-- Modelled from the spec: parse a front-matter date string of the form
"Mon DD YYYY" into (year, month, day), validating the month name, the
day-of-month range, and a four-digit year. -/
def parseDate (s : String) : Option (Nat × Nat × Nat) :=
  match splitOnSpace s.toList [] with
  | [m, d, y] =>
    match monthNum (String.mk m), digitsToNat d 0, digitsToNat y 0 with
    | some mn, some dn, some yn =>
      if d ≠ [] ∧ d.length ≤ 2 ∧ y.length = 4 ∧ 1 ≤ dn ∧ dn ≤ daysInMonth mn yn then
        some (yn, mn, dn)
      else none
    | _, _, _ => none
  | _ => none

/-! ### Embedding of the build configuration (`src/unnamed/part_000`) -/

/-- One enabled build-time integration of the configuration. -/
inductive Integration where
  | mdx
  | sitemap
  | tailwind
deriving DecidableEq

/-- Shape of the record passed to `defineConfig`. -/
structure AstroConfig where
  site : String
  base : String
  integrations : List Integration
deriving DecidableEq

/-- The configuration record of `src/unnamed/part_000`, lines 6-10. -/
def astroConfig : AstroConfig :=
  { site := "https://twillecke.github.io/"
    base := "/site/"
    integrations := [Integration.mdx, Integration.sitemap, Integration.tailwind] }

/-- Modelled from the spec: the repository contains no URL validator; this
checks the spec's "syntactically valid absolute URL" property — an
`http`/`https` scheme followed by a non-empty remainder. -/
def isAbsoluteUrl (s : String) : Bool :=
  ((String.toList "https://").isPrefixOf s.toList && s.toList.length > 8) ||
  ((String.toList "http://").isPrefixOf s.toList && s.toList.length > 7)

/-! ### Embedding of the `TokenBucket` class (`src/consts.ts`, lines 84-148)

Time is embedded as an integer millisecond timestamp, passed explicitly to
each method that reads the clock.  `elapsed` and `intervalsPassed` are
inlined; `Math.floor(elapsed / RATE)` is floor division, which `Int`
division (`Int.ediv`) computes for a positive divisor. -/

/-- `BUCKET_CAPACITY = 5` (`src/consts.ts`, line 84). -/
def BUCKET_CAPACITY : Int := 5

/-- `BUCKET_REFILL_RATE = 5000` milliseconds (`src/consts.ts`, line 85). -/
def BUCKET_REFILL_RATE : Int := 5000

/-- State of a `TokenBucket`: id, last-refill timestamp, capacity, and
remaining tokens. -/
structure TokenBucket where
  id : String
  refilledAt : Int
  capacity : Int
  remaining : Int
deriving DecidableEq

/-- The `TokenBucket` constructor: `remaining := tokens`,
`capacity := BUCKET_CAPACITY`. -/
def TokenBucket.init (id : String) (tokens : Int) (refilledAt : Int) : TokenBucket :=
  { id := id, refilledAt := refilledAt, capacity := BUCKET_CAPACITY, remaining := tokens }

/-- `refillIfNeeded` (`src/consts.ts`, lines 132-147): if at least one full
refill interval elapsed since `refilledAt`, add one token per interval,
capped at `capacity`, and advance `refilledAt` by the whole intervals. -/
def TokenBucket.refillIfNeeded (b : TokenBucket) (now : Int) : TokenBucket :=
  if now - b.refilledAt < BUCKET_REFILL_RATE then b
  else if (now - b.refilledAt) / BUCKET_REFILL_RATE ≤ 0 then b
  else
    { b with
      remaining := min b.capacity (b.remaining + (now - b.refilledAt) / BUCKET_REFILL_RATE)
      refilledAt := b.refilledAt + ((now - b.refilledAt) / BUCKET_REFILL_RATE) * BUCKET_REFILL_RATE }

/-- `consumeToken` (`src/consts.ts`, lines 111-114): refill first, then
decrement `remaining` when it is positive. -/
def TokenBucket.consumeToken (b : TokenBucket) (now : Int) : TokenBucket :=
  let b1 := b.refillIfNeeded now
  if b1.remaining > 0 then { b1 with remaining := b1.remaining - 1 } else b1

/-- `getTokensLeft` (`src/consts.ts`, lines 116-118): return `remaining`;
the state is untouched. -/
def TokenBucket.getTokensLeft (b : TokenBucket) : TokenBucket × Int :=
  (b, b.remaining)

/-- `hasAvailableTokens` (`src/consts.ts`, lines 120-123): refill first,
then report whether `remaining` is positive. -/
def TokenBucket.hasAvailableTokens (b : TokenBucket) (now : Int) : TokenBucket × Bool :=
  let b1 := b.refillIfNeeded now
  (b1, decide (b1.remaining > 0))

/-- One call in a sequence of bucket operations, with the clock value the
call observes. -/
inductive BucketOp where
  | consume (now : Int)
  | hasTokens (now : Int)
  | tokensLeft
deriving DecidableEq

/-- Apply one operation to a bucket state. -/
def applyOp (b : TokenBucket) : BucketOp → TokenBucket
  | BucketOp.consume t => b.consumeToken t
  | BucketOp.hasTokens t => (b.hasAvailableTokens t).1
  | BucketOp.tokensLeft => (b.getTokensLeft).1

/-- Run a sequence of bucket operations from a starting state. -/
def runOps (b : TokenBucket) (ops : List BucketOp) : TokenBucket :=
  ops.foldl applyOp b

/-- The range invariant of a bucket state: `remaining` lies in
`[0, capacity]` and `capacity` is the constructed `BUCKET_CAPACITY`. -/
def BucketInv (b : TokenBucket) : Prop :=
  0 ≤ b.remaining ∧ b.remaining ≤ b.capacity ∧ b.capacity = BUCKET_CAPACITY

theorem refillIfNeeded_inv (b : TokenBucket) (now : Int) (h : BucketInv b) :
    BucketInv (b.refillIfNeeded now) := by
  obtain ⟨h0, h1, hc⟩ := h
  unfold TokenBucket.refillIfNeeded
  by_cases hlt : now - b.refilledAt < BUCKET_REFILL_RATE
  · simp only [if_pos hlt]; exact ⟨h0, h1, hc⟩
  · by_cases hip : (now - b.refilledAt) / BUCKET_REFILL_RATE ≤ 0
    · simp only [if_neg hlt, if_pos hip]; exact ⟨h0, h1, hc⟩
    · simp only [if_neg hlt, if_neg hip]
      have hk : 0 ≤ (now - b.refilledAt) / BUCKET_REFILL_RATE := le_of_lt (lt_of_not_le hip)
      refine ⟨le_min ?_ (by omega), min_le_left _ _, hc⟩
      rw [hc]; unfold BUCKET_CAPACITY; omega

theorem applyOp_inv (b : TokenBucket) (op : BucketOp) (h : BucketInv b) :
    BucketInv (applyOp b op) := by
  cases op with
  | consume t =>
    have h1 := refillIfNeeded_inv b t h
    obtain ⟨ha, hb, hc⟩ := h1
    show BucketInv (TokenBucket.consumeToken b t)
    unfold TokenBucket.consumeToken
    by_cases hr : (b.refillIfNeeded t).remaining > 0
    · simp only [if_pos hr]
      refine ⟨?_, ?_, ?_⟩
      · show 0 ≤ (b.refillIfNeeded t).remaining - 1; omega
      · show (b.refillIfNeeded t).remaining - 1 ≤ (b.refillIfNeeded t).capacity; omega
      · show (b.refillIfNeeded t).capacity = BUCKET_CAPACITY; exact hc
    · simp only [if_neg hr]; exact ⟨ha, hb, hc⟩
  | hasTokens t => exact refillIfNeeded_inv b t h
  | tokensLeft => exact h

theorem runOps_inv (ops : List BucketOp) (b : TokenBucket) (h : BucketInv b) :
    BucketInv (runOps b ops) := by
  induction ops generalizing b with
  | nil => exact h
  | cons op rest ih => exact ih (applyOp b op) (applyOp_inv b op h)

/-! ### Claim theorems -/

/-- Claim C1, counterexample: the claim as stated is false on the source
files.  The repository's source files contain four content documents, all
posts; `NUM_WORKS_ON_HOMEPAGE = 2` and `NUM_PROJECTS_ON_HOMEPAGE = 3`
both exceed the zero works and zero projects items available. -/
theorem homepage_counts_claim_false :
    ¬ (0 ≤ SITE.NUM_POSTS_ON_HOMEPAGE ∧
       SITE.NUM_POSTS_ON_HOMEPAGE ≤ (countOfType ContentType.post : Int) ∧
       0 ≤ SITE.NUM_WORKS_ON_HOMEPAGE ∧
       SITE.NUM_WORKS_ON_HOMEPAGE ≤ (countOfType ContentType.work : Int) ∧
       0 ≤ SITE.NUM_PROJECTS_ON_HOMEPAGE ∧
       SITE.NUM_PROJECTS_ON_HOMEPAGE ≤ (countOfType ContentType.project : Int)) := by
  decide

/-- Claim C1, amended: every landing-page count field of `SITE` is a
non-negative integer, and the posts count is no larger than the number of
available posts among the repository's source files (3 out of 4); the works
and projects counts exceed the zero items of their types present there. -/
theorem homepage_counts_amended :
    0 ≤ SITE.NUM_POSTS_ON_HOMEPAGE ∧
    0 ≤ SITE.NUM_WORKS_ON_HOMEPAGE ∧
    0 ≤ SITE.NUM_PROJECTS_ON_HOMEPAGE ∧
    SITE.NUM_POSTS_ON_HOMEPAGE ≤ (countOfType ContentType.post : Int) := by
  decide

/-- Claim C2, counterexample: not every content document carries all four
front-matter fields — the "Automated Tests" document has no `draft`
field. -/
theorem frontmatter_draft_claim_false :
    (contentDocs.all (fun d =>
      d.fm.title.isSome && d.fm.description.isSome && d.fm.date.isSome &&
        d.fm.draft.isSome)) = false ∧
    automatedTestsDoc ∈ contentDocs ∧ automatedTestsDoc.fm.draft = none := by
  decide

/-- Claim C2, amended: every content document's front-matter block contains
a title, a description and a publication date, and every document except
"Automated Tests" also contains the draft boolean. -/
theorem frontmatter_fields_amended :
    (contentDocs.all (fun d =>
      d.fm.title.isSome && d.fm.description.isSome && d.fm.date.isSome)) = true ∧
    (contentDocs.all (fun d =>
      d.fm.draft.isSome || (d.fm.title == some "Automated Tests"))) = true := by
  decide

/-- Claim C3: for every content document in the repository, the front-matter
date field is present and parses as a valid date. -/
theorem frontmatter_dates_valid :
    (contentDocs.all (fun d => (d.fm.date.bind parseDate).isSome)) = true := by
  decide

/-- Claim C4: the base path of the build configuration is a non-empty string
whose first and last characters are both the path separator. -/
theorem base_path_wellformed :
    astroConfig.base ≠ "" ∧
    astroConfig.base.toList.head? = some '/' ∧
    astroConfig.base.toList.getLast? = some '/' := by
  decide

/-- Claim C5: every entry of `SOCIALS` has an `HREF` that is a syntactically
valid absolute URL. -/
theorem socials_absolute_urls :
    (SOCIALS.all (fun s => isAbsoluteUrl s.HREF)) = true := by
  decide

/-- Claim C6: the build configuration declares exactly the public site
origin URL, the base path prefix, and the three enabled integrations
(Markdown/typed-content support, sitemap generation, utility-class
styling), in that order. -/
theorem config_declares_site_base_integrations :
    astroConfig.site = "https://twillecke.github.io/" ∧
    astroConfig.base = "/site/" ∧
    astroConfig.integrations = [Integration.mdx, Integration.sitemap, Integration.tailwind] := by
  decide

/-- Claim C8: the site identity record consists of the name string, the
contact email string, and one small (single-digit, non-negative) integer
count per content type controlling the landing page. -/
theorem site_record_fields :
    SITE.NAME = "Thiago Willecke | dev" ∧
    SITE.EMAIL = "thiagogwillecke@gmail.com" ∧
    SITE.NUM_POSTS_ON_HOMEPAGE = 3 ∧
    SITE.NUM_WORKS_ON_HOMEPAGE = 2 ∧
    SITE.NUM_PROJECTS_ON_HOMEPAGE = 3 ∧
    (0 ≤ SITE.NUM_POSTS_ON_HOMEPAGE ∧ SITE.NUM_POSTS_ON_HOMEPAGE ≤ 9) ∧
    (0 ≤ SITE.NUM_WORKS_ON_HOMEPAGE ∧ SITE.NUM_WORKS_ON_HOMEPAGE ≤ 9) ∧
    (0 ≤ SITE.NUM_PROJECTS_ON_HOMEPAGE ∧ SITE.NUM_PROJECTS_ON_HOMEPAGE ≤ 9) := by
  decide

/-- Claim C9: for a `TokenBucket` constructed with an initial token count
between 0 and `BUCKET_CAPACITY` inclusive, after any sequence of
`consumeToken`, `hasAvailableTokens` and `getTokensLeft` calls at any
times (in particular any non-decreasing times), the remaining count stays
in `[0, BUCKET_CAPACITY]`; and `consumeToken` on a bucket with zero
remaining tokens and no elapsed refill interval leaves remaining at 0. -/
theorem tokenBucket_remaining_in_range (id : String) (tokens t0 : Int)
    (h0 : 0 ≤ tokens) (h1 : tokens ≤ BUCKET_CAPACITY) (ops : List BucketOp) :
    (0 ≤ (runOps (TokenBucket.init id tokens t0) ops).remaining ∧
      (runOps (TokenBucket.init id tokens t0) ops).remaining ≤ BUCKET_CAPACITY) ∧
    (∀ (b : TokenBucket) (now : Int), b.remaining = 0 →
      now - b.refilledAt < BUCKET_REFILL_RATE → (b.consumeToken now).remaining = 0) := by
  constructor
  · have h := runOps_inv ops (TokenBucket.init id tokens t0) ⟨h0, h1, rfl⟩
    obtain ⟨ha, hb, hc⟩ := h
    exact ⟨ha, hc ▸ hb⟩
  · intro b now hz hlt
    have hrf : b.refillIfNeeded now = b := by
      unfold TokenBucket.refillIfNeeded; rw [if_pos hlt]
    simp [TokenBucket.consumeToken, hrf, hz]

/-- Witness for claim C9 at a concrete run: capacity-5 bucket created at
time 0, drained and queried across two refill intervals. -/
theorem tokenBucket_remaining_in_range_witness :
    ((0 ≤ (runOps (TokenBucket.init "user" 5 0)
        [BucketOp.consume 0, BucketOp.consume 12000, BucketOp.hasTokens 12000,
          BucketOp.tokensLeft]).remaining ∧
      (runOps (TokenBucket.init "user" 5 0)
        [BucketOp.consume 0, BucketOp.consume 12000, BucketOp.hasTokens 12000,
          BucketOp.tokensLeft]).remaining ≤ BUCKET_CAPACITY) ∧
    (∀ (b : TokenBucket) (now : Int), b.remaining = 0 →
      now - b.refilledAt < BUCKET_REFILL_RATE → (b.consumeToken now).remaining = 0)) :=
  tokenBucket_remaining_in_range "user" 5 0 (by decide) (by decide)
    [BucketOp.consume 0, BucketOp.consume 12000, BucketOp.hasTokens 12000,
      BucketOp.tokensLeft]

/-- Claim C10: `getTokensLeft` is a pure observer — it returns the current
remaining count and leaves the whole bucket state (remaining and
refilledAt included) unchanged, performing no refill; by contrast there is
a state and time at which both `hasAvailableTokens` and `consumeToken`
change `refilledAt` through the refill they invoke first. -/
theorem getTokensLeft_pure_observer :
    (∀ b : TokenBucket, b.getTokensLeft = (b, b.remaining)) ∧
    (∃ (b : TokenBucket) (now : Int),
      (b.hasAvailableTokens now).1.refilledAt ≠ b.refilledAt ∧
      (b.consumeToken now).refilledAt ≠ b.refilledAt ∧
      (b.getTokensLeft).1 = b) := by
  refine ⟨fun b => rfl, ⟨TokenBucket.init "u" 0 0, 5000, ?_, ?_, rfl⟩⟩ <;> decide
